import Mathlib

/-!
Verification of the bitmap reconstructor `dib_to_bmp_file_bytes` from
`Blender_IMGFromClipboard.py`.

The Python function wraps a raw DIB (device-independent bitmap) buffer into a
BMP file by synthesizing a 14-byte BITMAPFILEHEADER and prepending it to the
buffer.  We embed the function shallowly: a byte buffer is a `List Nat`
(each element a byte value), little-endian multi-byte reads are `readLE`,
little-endian serialization is `toLE`, and the fallible function returns
`Except BmpError (List Nat)`.

The embedding keeps the Python control flow faithfully, including the fact
that `struct.pack("<2sIHHI", ...)` raises `struct.error` when the file-size
or pixel-data-offset value does not fit an unsigned 32-bit field; that path
is modelled by the `packError` constructor.
-/

/-- Little-endian read of `n` bytes of `l` starting at offset `off`
(out-of-range positions read as 0, matching the fact that the Python code
only calls this in-bounds).  Models `struct.unpack_from("<...>", dib, off)`. -/
def readLE : List Nat → Nat → Nat → Nat
  | _, _, 0 => 0
  | l, off, n + 1 => l.getD off 0 + 256 * readLE l (off + 1) n

/-- Little-endian serialization of value `v` into `n` bytes.
Models one field of `struct.pack`. -/
def toLE : Nat → Nat → List Nat
  | _, 0 => []
  | v, n + 1 => v % 256 :: toLE (v / 256) n

/-- The failure modes of the embedded function: `invalidInput` models the two
`raise ValueError` statements; `packError` models `struct.error` raised by
`struct.pack` when a `<I` field value exceeds `2^32 - 1`. -/
inductive BmpError where
  | invalidInput
  | packError

/-- Field read `biSize = struct.unpack_from("<I", dib, 0)[0]`. -/
def biSize (dib : List Nat) : Nat := readLE dib 0 4

/-- Field read `biBitCount = struct.unpack_from("<H", dib, 14)[0]`. -/
def biBitCount (dib : List Nat) : Nat := readLE dib 14 2

/-- Field read `biCompression = struct.unpack_from("<I", dib, 16)[0]`. -/
def biCompression (dib : List Nat) : Nat := readLE dib 16 4

/-- Field read `biClrUsed = struct.unpack_from("<I", dib, 32)[0]`. -/
def biClrUsed (dib : List Nat) : Nat := readLE dib 32 4

/-- Source variable `palette_entries`: 0, overwritten when `biBitCount <= 8` with
`biClrUsed if biClrUsed != 0 else (1 << biBitCount)`. -/
def palette_entries (dib : List Nat) : Nat :=
  if biBitCount dib ≤ 8 then
    (if biClrUsed dib ≠ 0 then biClrUsed dib else 2 ^ biBitCount dib)
  else 0

/-- Source variable `palette_size = palette_entries * 4`. -/
def palette_size (dib : List Nat) : Nat := palette_entries dib * 4

/-- Source variable `masks_size`: 0, overwritten with 12 when `biCompression in (3, 6)` and
`biSize == 40` (nested ifs as in the source). -/
def masks_size (dib : List Nat) : Nat :=
  if biCompression dib = 3 ∨ biCompression dib = 6 then
    (if biSize dib = 40 then 12 else 0)
  else 0

/-- Source variable `off_bits = 14 + biSize + palette_size + masks_size`. -/
def off_bits (dib : List Nat) : Nat :=
  14 + biSize dib + palette_size dib + masks_size dib

/-- Source variable `file_size = 14 + len(dib)`. -/
def file_size (dib : List Nat) : Nat := 14 + dib.length

/-- Source variable `bfh = struct.pack("<2sIHHI", b"BM", file_size, 0, 0, off_bits)`:
the bytes 0x42 0x4D ('B', 'M'), then `file_size` as 4 LE bytes, two 2-byte
zero fields, and `off_bits` as 4 LE bytes. -/
def bfh (dib : List Nat) : List Nat :=
  [66, 77] ++ toLE (file_size dib) 4 ++ toLE 0 2 ++ toLE 0 2 ++
    toLE (off_bits dib) 4

/-- Shallow embedding of `dib_to_bmp_file_bytes`.  The two guard clauses
raise `ValueError` (modelled `invalidInput`); on an empty buffer
`not dib` is true and the length test is subsumed by `len < 40`.
`struct.pack` raises `struct.error` (modelled `packError`) when a `<I`
field (`file_size` or `off_bits`) is `≥ 2^32`; otherwise the result is
`bfh + dib`. -/
def dib_to_bmp_file_bytes (dib : List Nat) : Except BmpError (List Nat) :=
  if dib.length < 40 then .error .invalidInput
  else if biSize dib < 40 ∨ dib.length < biSize dib then .error .invalidInput
  else if file_size dib < 2 ^ 32 ∧ off_bits dib < 2 ^ 32 then
    .ok (bfh dib ++ dib)
  else .error .packError

/-! ### Basic lemmas about the byte-level helpers -/

theorem toLE_length (v n : Nat) : (toLE v n).length = n := by
  induction n generalizing v with
  | zero => rfl
  | succ n ih => simp [toLE, ih]

theorem readLE_cons (x : Nat) (l : List Nat) (off n : Nat) :
    readLE (x :: l) (off + 1) n = readLE l off n := by
  induction n generalizing off with
  | zero => rfl
  | succ n ih =>
    simp only [readLE, List.getD_cons_succ]
    rw [ih (off + 1)]

theorem readLE_append (l₁ l₂ : List Nat) (off n k : Nat)
    (hk : k = l₁.length + off) :
    readLE (l₁ ++ l₂) k n = readLE l₂ off n := by
  subst hk
  induction l₁ with
  | nil => simp
  | cons x t ih =>
    have h1 : (x :: t).length + off = (t.length + off) + 1 := by
      simp [List.length_cons]; omega
    rw [h1, List.cons_append, readLE_cons, ih]

theorem mod_mul_decomp (v m : Nat) :
    v % (256 * m) = v % 256 + 256 * (v / 256 % m) := by
  conv_lhs => rw [← Nat.div_add_mod (v % (256 * m)) 256]
  rw [Nat.mod_mul_right_div_self, Nat.mod_mod_of_dvd _ ⟨m, rfl⟩]
  omega

theorem readLE_toLE (v n : Nat) (rest : List Nat) :
    readLE (toLE v n ++ rest) 0 n = v % 256 ^ n := by
  induction n generalizing v with
  | zero => simp [readLE, Nat.mod_one]
  | succ n ih =>
    have hexp : toLE v (n + 1) ++ rest = (v % 256) :: (toLE (v / 256) n ++ rest) := by
      simp [toLE]
    rw [hexp]
    simp only [readLE, List.getD_cons_zero]
    rw [show (0 : Nat) + 1 = 0 + 1 from rfl, readLE_cons, ih]
    rw [pow_succ, mul_comm (256 ^ n) 256, mod_mul_decomp]

theorem bfh_length (dib : List Nat) : (bfh dib).length = 14 := by
  simp [bfh, toLE_length]

/-! ### Decoding the synthesized file header -/

theorem bmp_split10 (dib : List Nat) :
    bfh dib ++ dib =
      ([66, 77] ++ toLE (file_size dib) 4 ++ toLE 0 2 ++ toLE 0 2) ++
        (toLE (off_bits dib) 4 ++ dib) := by
  simp [bfh, List.append_assoc]

theorem readLE_bmp_off (dib : List Nat) :
    readLE (bfh dib ++ dib) 10 4 = off_bits dib % 2 ^ 32 := by
  rw [bmp_split10, readLE_append _ _ 0 4 10 (by simp [toLE_length]), readLE_toLE]
  norm_num

theorem readLE_bmp_size (dib : List Nat) :
    readLE (bfh dib ++ dib) 2 4 = file_size dib % 2 ^ 32 := by
  have h : bfh dib ++ dib =
      [66, 77] ++ (toLE (file_size dib) 4 ++
        (toLE 0 2 ++ toLE 0 2 ++ toLE (off_bits dib) 4 ++ dib)) := by
    simp [bfh, List.append_assoc]
  rw [h, readLE_append _ _ 0 4 2 (by simp), readLE_toLE]
  norm_num

theorem readLE_bmp_res1 (dib : List Nat) :
    readLE (bfh dib ++ dib) 6 2 = 0 := by
  have h : bfh dib ++ dib =
      ([66, 77] ++ toLE (file_size dib) 4) ++
        (toLE 0 2 ++ (toLE 0 2 ++ toLE (off_bits dib) 4 ++ dib)) := by
    simp [bfh, List.append_assoc]
  rw [h, readLE_append _ _ 0 2 6 (by simp [toLE_length]), readLE_toLE]
  exact Nat.zero_mod _

theorem readLE_bmp_res2 (dib : List Nat) :
    readLE (bfh dib ++ dib) 8 2 = 0 := by
  have h : bfh dib ++ dib =
      ([66, 77] ++ toLE (file_size dib) 4 ++ toLE 0 2) ++
        (toLE 0 2 ++ (toLE (off_bits dib) 4 ++ dib)) := by
    simp [bfh, List.append_assoc]
  rw [h, readLE_append _ _ 0 2 8 (by simp [toLE_length]), readLE_toLE]
  exact Nat.zero_mod _

/-- Characterization of the success path: the result is `Except.ok out` iff
all three guards pass and `out` is the file header followed by the input. -/
theorem ok_iff (dib out : List Nat) :
    dib_to_bmp_file_bytes dib = Except.ok out ↔
      40 ≤ dib.length ∧ 40 ≤ biSize dib ∧ biSize dib ≤ dib.length ∧
      file_size dib < 2 ^ 32 ∧ off_bits dib < 2 ^ 32 ∧ out = bfh dib ++ dib := by
  unfold dib_to_bmp_file_bytes
  split
  next h =>
    constructor
    · intro hc; exact Except.noConfusion hc
    · intro hc; exact absurd hc.1 (by omega)
  next h =>
    split
    next h2 =>
      constructor
      · intro hc; exact Except.noConfusion hc
      · intro hc
        obtain ⟨_, c2, c3, _, _, _⟩ := hc
        exact absurd h2 (by omega)
    next h2 =>
      rw [not_or, not_lt, not_lt] at h2
      split
      next h3 =>
        constructor
        · intro hc
          injection hc with hc
          exact ⟨by omega, h2.1, h2.2, h3.1, h3.2, hc.symm⟩
        · rintro ⟨_, _, _, _, _, rfl⟩; rfl
      next h3 =>
        constructor
        · intro hc; exact Except.noConfusion hc
        · rintro ⟨_, _, _, h4, h5, _⟩; exact absurd ⟨h4, h5⟩ h3

theorem masks_size_eq_ite (dib : List Nat) :
    masks_size dib =
      if (biCompression dib = 3 ∨ biCompression dib = 6) ∧ biSize dib = 40 then 12
      else 0 := by
  unfold masks_size
  by_cases h1 : biCompression dib = 3 ∨ biCompression dib = 6 <;>
    by_cases h2 : biSize dib = 40 <;> simp [h1, h2]

theorem readLE_append_stable (l pad : List Nat) (off n : Nat)
    (h : off + n ≤ l.length) :
    readLE (l ++ pad) off n = readLE l off n := by
  induction n generalizing off with
  | zero => rfl
  | succ n ih =>
    simp only [readLE]
    rw [List.getD_append _ _ _ _ (by omega), ih (off + 1) (by omega)]

/-! ### Concrete example buffers (40-byte BITMAPINFOHEADERs, plus one 50-byte
buffer with an oversized declared header size) -/

/-- A 40-byte header: biSize=40, planes=1, biBitCount=24, biCompression=0,
biClrUsed=0. -/
def ex1 : List Nat :=
  [40, 0, 0, 0,  0, 0, 0, 0,  0, 0, 0, 0,  1, 0,  24, 0,
   0, 0, 0, 0,  0, 0, 0, 0,  0, 0, 0, 0,  0, 0, 0, 0,
   0, 0, 0, 0,  0, 0, 0, 0]

/-- A 40-byte header: biSize=40, biBitCount=8, biCompression=0, biClrUsed=0. -/
def ex2 : List Nat :=
  [40, 0, 0, 0,  0, 0, 0, 0,  0, 0, 0, 0,  1, 0,  8, 0,
   0, 0, 0, 0,  0, 0, 0, 0,  0, 0, 0, 0,  0, 0, 0, 0,
   0, 0, 0, 0,  0, 0, 0, 0]

/-- A 40-byte header: biSize=40, biBitCount=32, biCompression=3 (bitfields),
biClrUsed=0. -/
def ex3 : List Nat :=
  [40, 0, 0, 0,  0, 0, 0, 0,  0, 0, 0, 0,  1, 0,  32, 0,
   3, 0, 0, 0,  0, 0, 0, 0,  0, 0, 0, 0,  0, 0, 0, 0,
   0, 0, 0, 0,  0, 0, 0, 0]

/-- A 50-byte buffer whose declared header size (100) exceeds its length. -/
def ex7 : List Nat := 100 :: 0 :: 0 :: 0 :: List.replicate 46 0

/-- A 40-byte all-zero buffer (used only for in-bounds facts, not acceptance). -/
def ex9 : List Nat := List.replicate 40 0

/-- A 40-byte header: biSize=40, biBitCount=1, biClrUsed=0xFFFFFFFF.  The
palette size is then 4 * (2^32 - 1), so `off_bits` overflows the `<I` field
of `struct.pack`. -/
def cx8 : List Nat :=
  [40, 0, 0, 0,  0, 0, 0, 0,  0, 0, 0, 0,  1, 0,  1, 0,
   0, 0, 0, 0,  0, 0, 0, 0,  0, 0, 0, 0,  0, 0, 0, 0,
   255, 255, 255, 255,  0, 0, 0, 0]

/-- A 40-byte header: biSize=40, biBitCount=8, biClrUsed=1000.  Accepted, but
its pixel-data offset (4054) exceeds its declared file size (54). -/
def cx10 : List Nat :=
  [40, 0, 0, 0,  0, 0, 0, 0,  0, 0, 0, 0,  1, 0,  8, 0,
   0, 0, 0, 0,  0, 0, 0, 0,  0, 0, 0, 0,  0, 0, 0, 0,
   232, 3, 0, 0,  0, 0, 0, 0]

/-! ### Claims -/

/-- Claim C1: for every accepted input buffer, the pixel-data offset written
into the synthesized 14-byte file header (4 LE bytes at output offset 10)
equals 14 + declared header size + palette byte size + mask byte size. -/
theorem claim_C1_pixel_data_offset (dib out : List Nat)
    (h : dib_to_bmp_file_bytes dib = Except.ok out) :
    readLE out 10 4 = 14 + biSize dib + palette_size dib + masks_size dib := by
  obtain ⟨_, _, _, _, h5, rfl⟩ := (ok_iff dib out).mp h
  rw [readLE_bmp_off, Nat.mod_eq_of_lt h5]
  rfl

/-- Claim C1 witness: a 40-byte header with bits-per-pixel=24, compression=0,
colors-used=0 is accepted and its written pixel-data offset is 54. -/
theorem claim_C1_witness :
    readLE (bfh ex1 ++ ex1) 10 4 =
      14 + biSize ex1 + palette_size ex1 + masks_size ex1 ∧
    readLE (bfh ex1 ++ ex1) 10 4 = 54 :=
  ⟨claim_C1_pixel_data_offset ex1 (bfh ex1 ++ ex1) rfl, by decide⟩

/-- Claim C2: for every accepted input buffer, the palette byte size used in
the written pixel-data offset is: when bits-per-pixel <= 8, four times the
entry count (colors-used when nonzero, else 2^bits-per-pixel); and 0 when
bits-per-pixel > 8. -/
theorem claim_C2_palette_size (dib out : List Nat)
    (h : dib_to_bmp_file_bytes dib = Except.ok out) :
    readLE out 10 4 =
      14 + biSize dib +
        (if biBitCount dib ≤ 8 then
          (if biClrUsed dib ≠ 0 then biClrUsed dib else 2 ^ biBitCount dib) * 4
        else 0) +
        masks_size dib := by
  obtain ⟨_, _, _, _, h5, rfl⟩ := (ok_iff dib out).mp h
  rw [readLE_bmp_off, Nat.mod_eq_of_lt h5]
  unfold off_bits palette_size palette_entries
  by_cases hb : biBitCount dib ≤ 8 <;> simp [hb]

/-- Claim C2 witness: an 8-bit header with colors-used=0 is accepted, its
offset obeys the palette formula, and equals 14 + 40 + 1024 = 1078. -/
theorem claim_C2_witness :
    (readLE (bfh ex2 ++ ex2) 10 4 =
      14 + biSize ex2 +
        (if biBitCount ex2 ≤ 8 then
          (if biClrUsed ex2 ≠ 0 then biClrUsed ex2 else 2 ^ biBitCount ex2) * 4
        else 0) +
        masks_size ex2) ∧
    readLE (bfh ex2 ++ ex2) 10 4 = 1078 :=
  ⟨claim_C2_palette_size ex2 (bfh ex2 ++ ex2) rfl, by decide⟩

/-- Claim C3: for every accepted input buffer, the mask byte size used in the
written pixel-data offset is 12 exactly when the compression code is 3 or 6
and the declared header size is exactly 40, and 0 in every other case. -/
theorem claim_C3_mask_size (dib out : List Nat)
    (h : dib_to_bmp_file_bytes dib = Except.ok out) :
    readLE out 10 4 =
      14 + biSize dib + palette_size dib +
        (if (biCompression dib = 3 ∨ biCompression dib = 6) ∧ biSize dib = 40
         then 12 else 0) ∧
    (masks_size dib = 12 ↔
      (biCompression dib = 3 ∨ biCompression dib = 6) ∧ biSize dib = 40) ∧
    (¬((biCompression dib = 3 ∨ biCompression dib = 6) ∧ biSize dib = 40) →
      masks_size dib = 0) := by
  obtain ⟨_, _, _, _, h5, rfl⟩ := (ok_iff dib out).mp h
  refine ⟨?_, ?_, ?_⟩
  · rw [readLE_bmp_off, Nat.mod_eq_of_lt h5, ← masks_size_eq_ite]
    rfl
  · rw [masks_size_eq_ite]
    by_cases hc : (biCompression dib = 3 ∨ biCompression dib = 6) ∧ biSize dib = 40 <;>
      simp [hc]
  · intro hc
    rw [masks_size_eq_ite, if_neg hc]

/-- Claim C3 witness: a 40-byte header with compression=3, bits-per-pixel=32
is accepted, obeys the mask formula, and its written offset is 66. -/
theorem claim_C3_witness :
    (readLE (bfh ex3 ++ ex3) 10 4 =
      14 + biSize ex3 + palette_size ex3 +
        (if (biCompression ex3 = 3 ∨ biCompression ex3 = 6) ∧ biSize ex3 = 40
         then 12 else 0) ∧
    (masks_size ex3 = 12 ↔
      (biCompression ex3 = 3 ∨ biCompression ex3 = 6) ∧ biSize ex3 = 40) ∧
    (¬((biCompression ex3 = 3 ∨ biCompression ex3 = 6) ∧ biSize ex3 = 40) →
      masks_size ex3 = 0)) ∧
    readLE (bfh ex3 ++ ex3) 10 4 = 66 :=
  ⟨claim_C3_mask_size ex3 (bfh ex3 ++ ex3) rfl, by decide⟩

/-- Claim C4: for every accepted input buffer, the output is the 14-byte file
header followed by the entire input: its length is 14 + input length, and
its suffix from offset 14 on is byte-for-byte the input. -/
theorem claim_C4_output_shape (dib out : List Nat)
    (h : dib_to_bmp_file_bytes dib = Except.ok out) :
    out.length = 14 + dib.length ∧ out.drop 14 = dib := by
  obtain ⟨_, _, _, _, _, rfl⟩ := (ok_iff dib out).mp h
  constructor
  · simp [List.length_append, bfh_length]
  · rw [← bfh_length dib, List.drop_left]

/-- Claim C4 witness at the 24-bit example header. -/
theorem claim_C4_witness :
    (bfh ex1 ++ ex1).length = 14 + ex1.length ∧
    (bfh ex1 ++ ex1).drop 14 = ex1 :=
  claim_C4_output_shape ex1 (bfh ex1 ++ ex1) rfl

/-- Claim C5: for every accepted input buffer, the synthesized file header is
exactly 14 bytes and contains, in order, the 2-byte signature 'B','M', the
total file size 14 + input length, two zero reserved 2-byte fields, and the
computed pixel-data offset, all little-endian. -/
theorem claim_C5_file_header_fields (dib out : List Nat)
    (h : dib_to_bmp_file_bytes dib = Except.ok out) :
    (out.take 14).length = 14 ∧
    out.take 2 = [66, 77] ∧
    readLE out 2 4 = 14 + dib.length ∧
    readLE out 6 2 = 0 ∧
    readLE out 8 2 = 0 ∧
    readLE out 10 4 = off_bits dib := by
  obtain ⟨_, _, _, h4, h5, rfl⟩ := (ok_iff dib out).mp h
  refine ⟨?_, ?_, ?_, readLE_bmp_res1 dib, readLE_bmp_res2 dib, ?_⟩
  · simp [List.length_take, List.length_append, bfh_length]
  · rfl
  · rw [readLE_bmp_size, Nat.mod_eq_of_lt h4]
    rfl
  · rw [readLE_bmp_off, Nat.mod_eq_of_lt h5]

/-- Claim C5 witness at the 24-bit example header. -/
theorem claim_C5_witness :
    ((bfh ex1 ++ ex1).take 14).length = 14 ∧
    (bfh ex1 ++ ex1).take 2 = [66, 77] ∧
    readLE (bfh ex1 ++ ex1) 2 4 = 14 + ex1.length ∧
    readLE (bfh ex1 ++ ex1) 6 2 = 0 ∧
    readLE (bfh ex1 ++ ex1) 8 2 = 0 ∧
    readLE (bfh ex1 ++ ex1) 10 4 = off_bits ex1 :=
  claim_C5_file_header_fields ex1 (bfh ex1 ++ ex1) rfl

/-- Claim C6: every input buffer shorter than 40 bytes (in particular the
empty buffer) is rejected with `invalidInput` and no output is produced. -/
theorem claim_C6_short_buffer (dib : List Nat) (h : dib.length < 40) :
    dib_to_bmp_file_bytes dib = Except.error BmpError.invalidInput := by
  unfold dib_to_bmp_file_bytes
  rw [if_pos h]

/-- Claim C6 witness: the empty buffer is rejected. -/
theorem claim_C6_witness :
    dib_to_bmp_file_bytes [] = Except.error BmpError.invalidInput :=
  claim_C6_short_buffer [] (by decide)

/-- Claim C7: every buffer of at least 40 bytes whose declared info-header
size (4 LE bytes at offset 0) is below 40 or above the buffer length is
rejected with `invalidInput`. -/
theorem claim_C7_bad_declared_size (dib : List Nat) (h : 40 ≤ dib.length)
    (h2 : biSize dib < 40 ∨ dib.length < biSize dib) :
    dib_to_bmp_file_bytes dib = Except.error BmpError.invalidInput := by
  unfold dib_to_bmp_file_bytes
  rw [if_neg (by omega), if_pos h2]

/-- Claim C7 witness: a 50-byte buffer declaring a 100-byte header is
rejected. -/
theorem claim_C7_witness :
    dib_to_bmp_file_bytes ex7 = Except.error BmpError.invalidInput :=
  claim_C7_bad_declared_size ex7 (by decide) (by decide)

/-- Claim C8 (amended): the reconstructor is a pure total function on byte
buffers whose every run returns an output, fails with `invalidInput`, or
fails with the `struct.pack` range error when the computed pixel-data offset
or file size does not fit an unsigned 32-bit field. -/
theorem claim_C8_failure_modes (dib : List Nat) :
    (∃ out, dib_to_bmp_file_bytes dib = Except.ok out) ∨
    dib_to_bmp_file_bytes dib = Except.error BmpError.invalidInput ∨
    dib_to_bmp_file_bytes dib = Except.error BmpError.packError := by
  unfold dib_to_bmp_file_bytes
  split
  · right; left; rfl
  · split
    · right; left; rfl
    · split
      · left; exact ⟨_, rfl⟩
      · right; right; rfl

/-- Claim C8 counterexample: on a 40-byte header with bits-per-pixel=1 and
colors-used=0xFFFFFFFF the run neither produces an output nor fails with
`invalidInput` — the header packing step fails because the pixel-data
offset exceeds `2^32 - 1`. -/
theorem claim_C8_counterexample :
    (dib_to_bmp_file_bytes cx8).toOption = none ∧
    dib_to_bmp_file_bytes cx8 ≠ Except.error BmpError.invalidInput := by
  have hv : dib_to_bmp_file_bytes cx8 = Except.error BmpError.packError := rfl
  constructor
  · rw [hv]; rfl
  · intro h
    rw [hv] at h
    injection h with h2
    exact BmpError.noConfusion h2

/-- Claim C9: with a buffer of at least 40 bytes, each fixed-offset field
read (4 bytes at 0, 2 at 14, 4 at 16, 4 at 32) ends at or before byte 40,
hence lies inside the buffer; consequently every header field is unchanged
by appending further bytes, so no read reaches beyond the buffer. -/
theorem claim_C9_reads_in_bounds (dib pad : List Nat) (h : 40 ≤ dib.length) :
    (0 + 4 ≤ dib.length ∧ 14 + 2 ≤ dib.length ∧ 16 + 4 ≤ dib.length ∧
      32 + 4 ≤ dib.length) ∧
    biSize (dib ++ pad) = biSize dib ∧
    biBitCount (dib ++ pad) = biBitCount dib ∧
    biCompression (dib ++ pad) = biCompression dib ∧
    biClrUsed (dib ++ pad) = biClrUsed dib := by
  refine ⟨⟨by omega, by omega, by omega, by omega⟩, ?_, ?_, ?_, ?_⟩
  · exact readLE_append_stable dib pad 0 4 (by omega)
  · exact readLE_append_stable dib pad 14 2 (by omega)
  · exact readLE_append_stable dib pad 16 4 (by omega)
  · exact readLE_append_stable dib pad 32 4 (by omega)

/-- Claim C9 witness at a 40-byte all-zero buffer extended by one byte. -/
theorem claim_C9_witness :
    (0 + 4 ≤ ex9.length ∧ 14 + 2 ≤ ex9.length ∧ 16 + 4 ≤ ex9.length ∧
      32 + 4 ≤ ex9.length) ∧
    biSize (ex9 ++ [7]) = biSize ex9 ∧
    biBitCount (ex9 ++ [7]) = biBitCount ex9 ∧
    biCompression (ex9 ++ [7]) = biCompression ex9 ∧
    biClrUsed (ex9 ++ [7]) = biClrUsed ex9 :=
  claim_C9_reads_in_bounds ex9 [7] (by decide)

/-- Claim C10: the colors-used field is never validated against the buffer
length — there is an accepted 40-byte buffer whose written pixel-data
offset exceeds the declared total file size 14 + input length. -/
theorem claim_C10_offset_past_eof :
    ∃ dib out, dib_to_bmp_file_bytes dib = Except.ok out ∧
      14 + dib.length < readLE out 10 4 :=
  ⟨cx10, bfh cx10 ++ cx10, rfl, by decide⟩
